import Mathlib

/-!
Verification of the typed extraction framework (`jsonv` serialization core):
shallow embedding of `src/include/jsonv/serialization/extract.hpp` and of the
implementation file containing `extraction_error`, `extraction_error::problem`,
`make_extraction_error_errmsg` and `extraction_context` (src/unnamed/part_001).
-/

namespace Jsonv

/-- One element of a structural path: an object key or an array index. The
`jsonv::path` type itself is an external collaborator (`path.hpp` is not under
src/); spec section 6 describes it as an ordered sequence of such elements. -/
inductive path_element where
  | key (k : String)
  | index (i : Nat)
  deriving DecidableEq

/-- Modelled from the spec: `jsonv::path` (external collaborator, `path.hpp` not
under src/) is an ordered sequence of path elements supporting concatenation and
human-readable rendering such as `.a.b[3]` (spec section 6). -/
abbrev path := List path_element

/-- Modelled from the spec: rendering of one path element, `.key` for an object
key and `[i]` for an array index (spec section 6, e.g. `.a.b[3]`). -/
def render_path_element : path_element → String
  | path_element.key k => "." ++ k
  | path_element.index i => "[" ++ toString i ++ "]"

/-- Modelled from the spec: rendering of a whole path, the concatenation of its
rendered elements, e.g. `.a.b[3]`. -/
def render_path (p : Jsonv.path) : String :=
  String.join (p.map render_path_element)

/-- Model of a C++ exception object derived from `std::exception`: `what` is the
message returned by its `what()` member. -/
structure cpp_exception where
  what : String
  deriving DecidableEq

/-- A captured exception (a non-null `std::exception_ptr`): either an object
derived from `std::exception`, or an arbitrary thrown object known only by the
demangled name reported by `current_exception_type_name()`. -/
inductive captured where
  | std_ex (ex : cpp_exception)
  | nonstd (type_name : String)
  deriving DecidableEq

/-- `extraction_error::problem` (extract.hpp lines 35-74): a structural path, a
human-readable message and an optional captured cause. -/
structure problem where
  path : Jsonv.path
  message : String
  cause : Option captured
  deriving DecidableEq

/-- `extraction_error::problem::problem(path, message, cause)` (part_001 lines
22-29): stores the three fields, replacing an empty message with
"Unknown problem". -/
def problem.make (p : Jsonv.path) (message : String) (cause : Option captured) :
    problem :=
  { path := p
    message := if message = "" then "Unknown problem" else message
    cause := cause }

/-- `extraction_error::problem::problem(path, message)` (part_001 lines 31-33):
delegates to the three-argument constructor with a null cause. -/
def problem.make_msg (p : Jsonv.path) (message : String) : problem :=
  problem.make p message none

/-- `extraction_error::problem::problem(path, cause)` (part_001 lines 35-56):
the message is the cause's `what()` when the cause derives from
`std::exception`, and otherwise "Exception with type " followed by the thrown
type's demangled name; it then delegates to the three-argument constructor with
the same cause. -/
def problem.from_cause (p : Jsonv.path) (c : captured) : problem :=
  problem.make p
    (match c with
     | captured.std_ex ex => ex.what
     | captured.nonstd ty => "Exception with type " ++ ty)
    (some c)

/-- `using problem_list = std::vector<problem>` (extract.hpp line 76). -/
abbrev problem_list := List problem

/-- The `write_problem` helper inside `make_extraction_error_errmsg` (part_001
lines 66-73): writes " at <path>: " only when the problem's path is non-empty,
then the problem's message. -/
def write_problem (pr : problem) : String :=
  (if pr.path = [] then "" else " at " ++ render_path pr.path ++ ": ") ++ pr.message

/-- `make_extraction_error_errmsg` (part_001 lines 62-97): an empty list renders
a fixed message about an unspecified problem; a single problem renders
"Extraction error" followed by that problem; several problems render a count
header followed by one "\n -" line per problem in list order. -/
def make_extraction_error_errmsg : problem_list → String
  | [] => "Extraction error with unspecified problem"
  | [pr] => "Extraction error" ++ write_problem pr
  | prs => toString prs.length ++ " extraction errors:" ++
      String.join (prs.map (fun pr => "\n -" ++ write_problem pr))

/-- `extraction_error` (extract.hpp lines 30-113): a `std::runtime_error` whose
`what()` is the rendered `errmsg`, carrying the list of problems. -/
structure extraction_error where
  problems : problem_list
  errmsg : String
  deriving DecidableEq

/-- `extraction_error::extraction_error(problem_list)` (part_001 lines 99-102):
renders the message from the list and stores the list exactly as given — no
synthetic problem is substituted. -/
def extraction_error.from_problems (problems : problem_list) : extraction_error :=
  { problems := problems, errmsg := make_extraction_error_errmsg problems }

/-- `extraction_error::extraction_error(path, message, cause)` (part_001 lines
104-111): a singleton problem list built from the arguments through the
`problem` constructor. -/
def extraction_error.of_path_message_cause (p : Jsonv.path) (message : String)
    (cause : Option captured) : extraction_error :=
  extraction_error.from_problems [problem.make p message cause]

/-- `extraction_error::extraction_error(path, message)` (part_001 lines
113-115). -/
def extraction_error.of_path_message (p : Jsonv.path) (message : String) :
    extraction_error :=
  extraction_error.from_problems [problem.make_msg p message]

/-- `extraction_error::extraction_error(path, cause)` (part_001 lines
117-119). -/
def extraction_error.of_path_cause (p : Jsonv.path) (c : captured) :
    extraction_error :=
  extraction_error.from_problems [problem.from_cause p c]

/-- `extraction_error::path()` (part_001 lines 123-136): the first problem's
path, or the empty path when the problem list is empty. -/
def extraction_error.path (e : extraction_error) : Jsonv.path :=
  match e.problems with
  | [] => []
  | pr :: _ => pr.path

/-- `extraction_error::nested_ptr()` (part_001 lines 138-151): the first
problem's cause, or null when the problem list is empty. -/
def extraction_error.nested_ptr (e : extraction_error) : Option captured :=
  match e.problems with
  | [] => none
  | pr :: _ => pr.cause

/-- `extract_options::on_error` (extract.hpp lines 122-128). -/
inductive on_error where
  | fail_immediately
  | collect_all
  deriving DecidableEq

/-- `extract_options::duplicate_key_action` (extract.hpp lines 131-144). -/
inductive duplicate_key_action where
  | replace
  | ignore
  | exception
  deriving DecidableEq

/-- `extract_options` (extract.hpp lines 116-183). -/
structure extract_options where
  failure_mode : on_error
  max_failures : Nat
  on_duplicate_key : duplicate_key_action
  deriving DecidableEq

/-- The default-constructed `extract_options`, given by the in-class member
initializers of extract.hpp lines 180-182: `fail_immediately`, `10`,
`replace`. -/
def extract_options.create_default : extract_options :=
  { failure_mode := on_error.fail_immediately
    max_failures := 10
    on_duplicate_key := duplicate_key_action.replace }

/-- `extraction_context` (extract.hpp lines 185-318): the options, the collected
problem list, and the accumulated structural path member written by
`extract_sub` (part_001 line 201). The `formats`/`version`/`user_data` of the
context base (`serialization/context.hpp`, not under src/) do not affect the
verified claims and are omitted. -/
structure extraction_context where
  options : extract_options
  problems : problem_list
  current_path : Jsonv.path
  deriving DecidableEq

/-- `extraction_context::path()` (extract.hpp line 310): returns a
default-constructed, empty path, ignoring the accumulated path member. -/
def extraction_context.path (_self : extraction_context) : Jsonv.path :=
  []

/-- Modelled from the spec: `extraction_context::on_problem()` is declared
private in extract.hpp (line 313) but its definition is not under src/. Spec
section 4.4 (soft-failure policy): under `fail_immediately`, immediately raise
an `extraction_error` wrapping the single problem just appended; under
`collect_all`, continue silently unless the collection has now reached
`max_failures`, in which case raise an `extraction_error` wrapping all collected
problems. The returned option is the raised error, `none` when control returns
normally. -/
def extraction_context.on_problem (self : extraction_context) :
    Option extraction_error :=
  match self.options.failure_mode with
  | on_error.fail_immediately =>
    match self.problems.getLast? with
    | some pr => some (extraction_error.from_problems [pr])
    | none => some (extraction_error.from_problems [])
  | on_error.collect_all =>
    if self.options.max_failures ≤ self.problems.length then
      some (extraction_error.from_problems self.problems)
    else
      none

/-- `extraction_context::problem(args...)` (extract.hpp lines 243-253): appends
a problem constructed from the arguments (the `reserve` call on line 247 only
affects vector capacity), runs `on_problem()`, and returns `false` when control
returns. The result is the updated context, the error raised by `on_problem`
(if any), and the returned boolean. -/
def extraction_context.problem (self : extraction_context) (p : Jsonv.path)
    (message : String) (cause : Option captured) :
    extraction_context × Option extraction_error × Bool :=
  let appended : extraction_context :=
    { self with problems := self.problems ++ [problem.make p message cause] }
  (appended, appended.on_problem, false)

/-- An exception escaping the registry invocation or the AST path lookup: either
an `extraction_error`, or some other thrown object. -/
inductive thrown where
  | extraction (e : extraction_error)
  | raw (c : captured)
  deriving DecidableEq

/-- The shared catch-clause ladder of `extract` and `extract_sub` (part_001
lines 177-191 and 206-220): an `extraction_error` is rethrown unchanged; an
object derived from `std::exception` is wrapped into an `extraction_error` at
path `p` with its `what()` as message and the captured exception as cause; any
other thrown object is wrapped at `p` with an "Exception with type " message. -/
def wrap_thrown (p : Jsonv.path) : thrown → extraction_error
  | thrown.extraction e => e
  | thrown.raw (captured.std_ex ex) =>
      extraction_error.of_path_message_cause p ex.what (some (captured.std_ex ex))
  | thrown.raw (captured.nonstd ty) =>
      extraction_error.of_path_message_cause p ("Exception with type " ++ ty)
        (some (captured.nonstd ty))

/-- `extraction_context::extract(type, from, into)` (part_001 lines 171-192):
invokes `formats().extract(type, from, into, *this)` (the external registry, not
under src/); its outcome is the parameter — `none` when the invocation returns,
`some t` when it throws `t`. A thrown exception is handled by the catch ladder,
which wraps at `this->path()`, the accessor of extract.hpp line 310. The result
is the exception (if any) thrown out of `extract`. -/
def extraction_context.extract (self : extraction_context)
    (outcome : Option thrown) : Option extraction_error :=
  outcome.map (wrap_thrown self.path)

/-- `extraction_context::extract_sub(type, from, subpath, into)` (part_001 lines
194-221): copies this context into `sub`, extends `sub`'s path member by
`subpath`, resolves `from.at_path(subpath)` (external AST, not under src/; the
`lookup` parameter is the exception that resolution throws, if any), then
delegates to `sub.extract` whose registry outcome is the `inner` parameter. An
exception escaping the try block is handled by the catch ladder, which wraps at
`sub.path()`, the accessor of extract.hpp line 310. -/
def extraction_context.extract_sub (self : extraction_context)
    (subpath : Jsonv.path) (lookup : Option thrown) (inner : Option thrown) :
    Option extraction_error :=
  let sub : extraction_context :=
    { self with current_path := self.current_path ++ subpath }
  let escaped : Option thrown :=
    match lookup with
    | some t => some t
    | none =>
      match sub.extract inner with
      | none => none
      | some e => some (thrown.extraction e)
  escaped.map (fun t => wrap_thrown sub.path t)

/-- Events in the bodies of the typed wrappers `extraction_context::extract<T>`
(extract.hpp lines 262-270) and `extract_sub<T>` (lines 285-293): invoking the
type-erased primitive on the raw storage slot, constructing the `on_scope_exit`
guard, moving the constructed value out, and the guard destroying the slot. -/
inductive wrapper_event where
  | call_primitive
  | register_guard
  | move_out
  | destroy_slot
  deriving DecidableEq

/-- Control flow of `extract<T>` (extract.hpp lines 262-270): the type-erased
primitive is called on the raw storage slot first; only when it returns normally
is the `on_scope_exit` guard constructed, after which the value is moved out and
the guard destroys the slot at scope exit. When the primitive throws, the
function exits by that exception before the guard exists, so no destruction
runs. -/
def extract_T_trace (primitive_throws : Bool) : List wrapper_event :=
  if primitive_throws then
    [wrapper_event.call_primitive]
  else
    [wrapper_event.call_primitive, wrapper_event.register_guard,
     wrapper_event.move_out, wrapper_event.destroy_slot]

/-- Control flow of `extract_sub<T>` (extract.hpp lines 285-293), identical in
shape to `extract<T>`: the guard is constructed only after the type-erased
`extract_sub` primitive returns normally. -/
def extract_sub_T_trace (primitive_throws : Bool) : List wrapper_event :=
  if primitive_throws then
    [wrapper_event.call_primitive]
  else
    [wrapper_event.call_primitive, wrapper_event.register_guard,
     wrapper_event.move_out, wrapper_event.destroy_slot]

/-- C8: A default-constructed `extract_options` has `failure_mode` equal to
`fail_immediately`, `max_failures` equal to `10`, and `on_duplicate_key` equal
to `replace`. -/
theorem C8_default_options :
    extract_options.create_default.failure_mode = on_error.fail_immediately
    ∧ extract_options.create_default.max_failures = 10
    ∧ extract_options.create_default.on_duplicate_key =
        duplicate_key_action.replace :=
  ⟨rfl, rfl, rfl⟩

/-- C10: For every `extraction_context`, including the child context derived
inside `extract_sub`, the public `path()` accessor returns the empty path, and
every error wrapped through `path()` by `extract` or `extract_sub` carries the
empty path. -/
theorem C10_path_accessor_empty (self : extraction_context)
    (subpath : Jsonv.path) (c : captured) :
    self.path = []
    ∧ ({ self with current_path := self.current_path ++ subpath } :
        extraction_context).path = []
    ∧ (self.extract (some (thrown.raw c))).map extraction_error.path = some []
    ∧ (self.extract_sub subpath (some (thrown.raw c)) none).map
        extraction_error.path = some [] := by
  refine ⟨rfl, rfl, ?_, ?_⟩ <;> cases c <;> rfl

/-- C1: constructing an `extraction_error` from the empty problem list succeeds
but stores an empty `problems()` list — no synthetic problem is substituted;
only the rendered message mentions an unspecified problem. This exhibits the
divergence from the claim that `problems()` is non-empty afterwards. -/
theorem C1_empty_problem_list_kept_empty :
    (extraction_error.from_problems []).problems = []
    ∧ (extraction_error.from_problems []).errmsg =
        "Extraction error with unspecified problem"
    ∧ ((extraction_error.from_problems []).problems.length == 1) = false :=
  ⟨rfl, rfl, rfl⟩

/-- Helper: a string built from a non-empty list of characters has positive
length. -/
lemma string_length_pos_of_ne_empty (s : String) (h : s ≠ "") : 0 < s.length := by
  cases s with
  | mk data =>
    cases data with
    | nil => exact absurd rfl h
    | cons ch cs => simp [String.length]

/-- Helper: the message normalization of `problem::problem` always yields a
string of positive length. -/
lemma ite_message_length_pos (s : String) :
    0 < (if s = "" then "Unknown problem" else s).length := by
  by_cases h : s = ""
  · subst h
    decide
  · rw [if_neg h]
    exact string_length_pos_of_ne_empty s h

/-- Helper: prepending the empty string is the identity. -/
lemma string_empty_append (s : String) : "" ++ s = s := by
  cases s with
  | mk data => rfl

/-- Helper: string concatenation is associative. -/
lemma string_append_assoc (a b c : String) : a ++ b ++ c = a ++ (b ++ c) := by
  cases a with
  | mk x =>
    cases b with
    | mk y =>
      cases c with
      | mk z => exact congrArg String.mk (List.append_assoc x y z)

/-- Helper: merging the literal prefix of the single-problem rendering. -/
lemma extraction_error_at_merge (s : String) :
    "Extraction error" ++ (" at " ++ s) = "Extraction error at " ++ s := by
  rw [← string_append_assoc]
  have h : "Extraction error" ++ " at " = "Extraction error at " := by decide
  rw [h]

/-- Helper: the "Exception with type " prefix makes the derived message
non-empty whatever the type name is. -/
lemma exception_message_ne_empty (t : String) :
    ("Exception with type " ++ t) ≠ "" := by
  intro hc
  have h0 : ("Exception with type " ++ t).length = 0 := by rw [hc]; rfl
  rw [String.length_append] at h0
  have hl : ("Exception with type " : String).length = 20 := by decide
  rw [hl] at h0
  omega

/-- C2: inside `extract_sub`, a non-`extraction_error` failure of the inner
extraction is wrapped at the empty path returned by the `path()` accessor, not
at the child context's extended path `.a.b[2]`. -/
theorem C2_extract_sub_attributes_empty_path :
    (extraction_context.extract_sub
        { options := extract_options.create_default, problems := [],
          current_path := [] }
        [path_element.key "a", path_element.key "b", path_element.index 2]
        none
        (some (thrown.raw (captured.std_ex { what := "boom" })))).map
      extraction_error.path = some []
    ∧ ((([] : Jsonv.path) ==
        [path_element.key "a", path_element.key "b", path_element.index 2])
        = false) :=
  ⟨rfl, rfl⟩

/-- C3: in `extract`, a non-`extraction_error` exception is wrapped at the empty
path returned by the `path()` accessor even when the context's accumulated path
member is non-empty; the original exception is preserved as the problem's
cause. -/
theorem C3_extract_attributes_empty_path :
    (extraction_context.extract
        { options := extract_options.create_default, problems := [],
          current_path := [path_element.key "a"] }
        (some (thrown.raw (captured.std_ex { what := "boom" }))))
      = some (extraction_error.from_problems
          [problem.make [] "boom" (some (captured.std_ex { what := "boom" }))])
    ∧ ({ options := extract_options.create_default, problems := [],
         current_path := [path_element.key "a"] } :
        extraction_context).current_path = [path_element.key "a"]
    ∧ ((([] : Jsonv.path) == [path_element.key "a"]) = false) :=
  ⟨rfl, rfl, rfl⟩

/-- C4: `context.problem(...)` appends the constructed problem and returns
`false` whenever control returns; under `fail_immediately` the raised error
wraps exactly the problem just appended; under `collect_all` it raises exactly
when the collected count has reached `max_failures`, wrapping all collected
problems in report order. -/
theorem C4_problem_policy (self : extraction_context) (p : Jsonv.path)
    (m : String) (c : Option captured) :
    (self.problem p m c).1.problems = self.problems ++ [problem.make p m c]
    ∧ (self.problem p m c).2.2 = false
    ∧ (self.problem p m c).2.1 =
        (match self.options.failure_mode with
         | on_error.fail_immediately =>
             some (extraction_error.from_problems [problem.make p m c])
         | on_error.collect_all =>
             if self.options.max_failures ≤ self.problems.length + 1 then
               some (extraction_error.from_problems
                 (self.problems ++ [problem.make p m c]))
             else none) := by
  refine ⟨rfl, rfl, ?_⟩
  show ({ self with problems := self.problems ++ [problem.make p m c] } :
      extraction_context).on_problem = _
  cases h : self.options.failure_mode with
  | fail_immediately =>
      simp only [extraction_context.on_problem, h]
      rw [List.getLast?_append_cons]
      rfl
  | collect_all =>
      simp [extraction_context.on_problem, h, List.length_append]

/-- C5: every `problem` constructor stores a non-empty message; an empty
supplied message is replaced by "Unknown problem", and the two-argument
constructor delegates with a null cause. -/
theorem C5_problem_message_nonempty (p : Jsonv.path) (m : String)
    (c : Option captured) (c2 : captured) :
    (problem.make p m c).message = (if m = "" then "Unknown problem" else m)
    ∧ 0 < (problem.make p m c).message.length
    ∧ problem.make_msg p m = problem.make p m none
    ∧ 0 < (problem.from_cause p c2).message.length := by
  refine ⟨rfl, ?_, rfl, ?_⟩
  · exact ite_message_length_pos m
  · exact ite_message_length_pos _

/-- C6 counterexample: with a single problem whose path is empty, the rendered
message is "Extraction errorm" — the " at <path>: " infix of the claimed shape
"Extraction error at <path>: <message>" is absent. -/
theorem C6_single_render_counterexample :
    make_extraction_error_errmsg [problem.make [] "m" none] = "Extraction errorm"
    ∧ (("Extraction errorm" == "Extraction error at : m") = false) := by
  refine ⟨?_, by decide⟩
  decide

/-- C6 amended: with exactly one problem the error renders as
"Extraction error at <path>: <message>" when the problem's path is non-empty,
and as "Extraction error<message>" (the at-clause omitted) when the path is
empty; with more than one problem it renders as a count header followed by one
"\n -" line per problem, in list order. -/
theorem C6_render_amended (pr pr2 : problem) (rest : List problem) :
    make_extraction_error_errmsg [pr] =
      (if pr.path = [] then "Extraction error" ++ pr.message
       else "Extraction error at " ++ render_path pr.path ++ ": " ++ pr.message)
    ∧ make_extraction_error_errmsg (pr :: pr2 :: rest) =
        toString (rest.length + 2) ++ " extraction errors:" ++
          String.join ((pr :: pr2 :: rest).map
            (fun q => "\n -" ++ write_problem q))
    ∧ write_problem pr =
        (if pr.path = [] then pr.message
         else " at " ++ render_path pr.path ++ ": " ++ pr.message) := by
  refine ⟨?_, rfl, ?_⟩
  · by_cases h : pr.path = []
    · simp [make_extraction_error_errmsg, write_problem, h, string_empty_append]
    · simp [make_extraction_error_errmsg, write_problem, h, string_append_assoc,
        extraction_error_at_merge]
  · by_cases h : pr.path = []
    · simp [write_problem, h, string_empty_append]
    · simp [write_problem, h]

/-- C7 counterexample: a problem constructed from a cause that is a
`std::exception` whose `what()` is empty stores "Unknown problem", which differs
from the cause's own (empty) message. -/
theorem C7_from_cause_counterexample :
    (problem.from_cause [] (captured.std_ex { what := "" })).message
      = "Unknown problem"
    ∧ (("Unknown problem" == ("" : String)) = false) :=
  ⟨rfl, by decide⟩

/-- C7 amended: construction from a path and a captured cause is total; the
stored message is the cause's `what()` when the cause derives from
`std::exception` and that message is non-empty (an empty `what()` is replaced by
"Unknown problem"), and "Exception with type <name>" otherwise; the stored
message is never empty, and the cause and path are preserved. -/
theorem C7_from_cause_amended (p : Jsonv.path) (c : captured) :
    (problem.from_cause p c).message =
      (match c with
       | captured.std_ex ex =>
           if ex.what = "" then "Unknown problem" else ex.what
       | captured.nonstd ty => "Exception with type " ++ ty)
    ∧ 0 < (problem.from_cause p c).message.length
    ∧ (problem.from_cause p c).cause = some c
    ∧ (problem.from_cause p c).path = p := by
  cases c with
  | std_ex ex =>
    refine ⟨rfl, ?_, rfl, rfl⟩
    exact ite_message_length_pos ex.what
  | nonstd ty =>
    refine ⟨?_, ?_, rfl, rfl⟩
    · show (if ("Exception with type " ++ ty) = "" then "Unknown problem"
          else "Exception with type " ++ ty) = "Exception with type " ++ ty
      exact if_neg (exception_message_ne_empty ty)
    · show 0 < (if ("Exception with type " ++ ty) = "" then "Unknown problem"
          else "Exception with type " ++ ty).length
      exact ite_message_length_pos _

/-- C9 counterexample: on the exit path where the type-erased primitive throws,
the typed wrappers perform no destruction of the storage slot, so destruction
does not run on every exit path. -/
theorem C9_no_destroy_on_throw :
    ((extract_T_trace true).contains wrapper_event.destroy_slot) = false
    ∧ ((extract_sub_T_trace true).contains wrapper_event.destroy_slot) = false :=
  ⟨rfl, rfl⟩

/-- C9 amended: the typed wrappers destroy the storage slot exactly on the exit
paths where the type-erased primitive returned normally, and there the
constructed value is moved out before the slot is destroyed; when the primitive
throws, the wrapper exits by that exception before the scope-exit guard is
registered, so no destruction runs. -/
theorem C9_destroy_amended (b : Bool) :
    ((extract_T_trace b).contains wrapper_event.destroy_slot) = !b
    ∧ ((extract_sub_T_trace b).contains wrapper_event.destroy_slot) = !b
    ∧ ((extract_T_trace b).contains wrapper_event.register_guard) = !b
    ∧ (extract_T_trace false).indexOf wrapper_event.move_out <
        (extract_T_trace false).indexOf wrapper_event.destroy_slot
    ∧ (extract_sub_T_trace false).indexOf wrapper_event.move_out <
        (extract_sub_T_trace false).indexOf wrapper_event.destroy_slot := by
  cases b <;> exact ⟨rfl, rfl, rfl, by decide, by decide⟩

end Jsonv
